import Mathlib

/-!
Verification development for the `vviz` rapid-prototyping GUI library.

The control side (`manager.rs`) keeps a mirrored cache of component values and an
outbound message queue; the presentation side (`gui.rs`, `common.rs`) owns the
authoritative widget/component tables. The two sides communicate exclusively via
the two closed message families `ToGuiLoopMessage` and `FromGuiLoopMessage`
(`common.rs`). This file is a shallow embedding of that core: `f32`/`f64` values
are modelled by `ℚ`, machine integers by `Int`/`Nat`, Rust panics (`unwrap`) by
`Option`, and the `linked_hash_map::LinkedHashMap` tables by association lists
in insertion order whose `insert` replaces an existing entry in place.
-/

set_option autoImplicit false

namespace VViz

/-! ## Insertion-ordered association lists

Model of `linked_hash_map::LinkedHashMap` as used by `Shared.components`,
`GuiData.components`, `GuiData.widgets` and `Widget3.entities`: iteration is in
insertion order, `insert` on an existing key overwrites the value keeping the
entry's position, and `remove` deletes the entry. -/

/-- `LinkedHashMap::get`: first (and only) entry with the given key. -/
def lookupEntry {β : Type} (label : String) : List (String × β) → Option β
  | [] => none
  | (k, v) :: rest => if k = label then some v else lookupEntry label rest

/-- `LinkedHashMap::contains_key`. -/
def containsEntry {β : Type} (label : String) : List (String × β) → Bool
  | [] => false
  | (k, _) :: rest => k = label || containsEntry label rest

/-- `LinkedHashMap::insert`: replace in place when the key is present,
otherwise append at the back. -/
def insertEntry {β : Type} (label : String) (v : β) : List (String × β) → List (String × β)
  | [] => [(label, v)]
  | (k, w) :: rest =>
    if k = label then (k, v) :: rest else (k, w) :: insertEntry label v rest

/-- `LinkedHashMap::get_mut` followed by a fallible in-place mutation of the
entry (the mutation fails when the stored component has the wrong dynamic type,
i.e. when the Rust `downcast_mut` unwrap would panic). `none` also models the
panic on a missing key. -/
def updateEntry {β : Type} (label : String) (f : β → Option β) :
    List (String × β) → Option (List (String × β))
  | [] => none
  | (k, v) :: rest =>
    if k = label then (f v).map fun v2 => (k, v2) :: rest
    else (updateEntry label f rest).map fun r => (k, v) :: r

/-- `LinkedHashMap::remove`: silently does nothing when the key is absent. -/
def removeEntry {β : Type} (label : String) : List (String × β) → List (String × β)
  | [] => []
  | (k, v) :: rest => if k = label then rest else (k, v) :: removeEntry label rest

/-! ## Payload data (`entities.rs`, `common.rs`)

Numeric `f32` components are modelled by `ℚ`, `i16` vertex indices by `Int`,
`u8`/`u32` image data by `Nat`. -/

/-- `nalgebra::Isometry3<f32>`: a rigid transform, a unit-quaternion rotation
plus a translation. -/
structure Isometry3 where
  qi : ℚ
  qj : ℚ
  qk : ℚ
  qw : ℚ
  tx : ℚ
  ty : ℚ
  tz : ℚ
deriving DecidableEq, Repr

/-- The identity transform `nalgebra::Isometry3::identity()`. -/
def Isometry3.identity : Isometry3 :=
  { qi := 0, qj := 0, qk := 0, qw := 1, tx := 0, ty := 0, tz := 0 }

/-- A `[f32; 7]` position-and-color vertex (`entities.rs`). -/
structure Vertex7 where
  v0 : ℚ
  v1 : ℚ
  v2 : ℚ
  v3 : ℚ
  v4 : ℚ
  v5 : ℚ
  v6 : ℚ
deriving DecidableEq, Repr

/-- A `[f32; 5]` position-and-uv vertex (`entities.rs`). -/
structure Vertex5 where
  v0 : ℚ
  v1 : ℚ
  v2 : ℚ
  v3 : ℚ
  v4 : ℚ
deriving DecidableEq, Repr

/-- A `[i16; 3]` triangle face (`entities.rs`, `Faces`). -/
structure Face3 where
  i0 : Int
  i1 : Int
  i2 : Int
deriving DecidableEq, Repr

/-- A `[i16; 2]` line-segment index pair (`entities.rs`, `LineSegments3`). -/
structure Seg2 where
  i0 : Int
  i1 : Int
deriving DecidableEq, Repr

/-- `entities::PositionColorVertices`. -/
structure PositionColorVertices where
  vertices : List Vertex7
deriving DecidableEq, Repr

/-- `entities::PositionUvVertices`. -/
structure PositionUvVertices where
  vertices : List Vertex5
deriving DecidableEq, Repr

/-- `entities::Texture` (an empty marker struct in the source). -/
inductive Texture where
  | mk
deriving DecidableEq, Repr

/-- `entities::PositionUvVerticesAndTexture`. -/
structure PositionUvVerticesAndTexture where
  vertices : PositionUvVertices
  texture : Texture
deriving DecidableEq, Repr

/-- `entities::MeshVertices`. -/
inductive MeshVertices where
  | positionColor (v : PositionColorVertices)
  | positionUvAndTexture (v : PositionUvVerticesAndTexture)
deriving DecidableEq, Repr

/-- `entities::Faces`. -/
structure Faces where
  indices : List Face3
deriving DecidableEq, Repr

/-- `entities::Mesh3`. -/
structure Mesh3 where
  vertices : MeshVertices
  faces : Faces
deriving DecidableEq, Repr

/-- `entities::LineSegments3`. -/
structure LineSegments3 where
  vertices : PositionColorVertices
  indices : List Seg2
deriving DecidableEq, Repr

/-- `entities::Entity3`. -/
inductive Entity3 where
  | mesh (m : Mesh3)
  | lineSegments (s : LineSegments3)
deriving DecidableEq, Repr

/-- `entities::NamedEntity3`: a named entity with a pose in the scene frame. -/
structure NamedEntity3 where
  label : String
  entity : Entity3
  scene_pose_entity : Isometry3
deriving DecidableEq, Repr

/-- `common::ImageRgba8`. -/
structure ImageRgba8 where
  bytes : List Nat
  width : Nat
  height : Nat
deriving DecidableEq, Repr

/-! ## Components (`common.rs`) and the component table

The Rust component table stores `Box<dyn Component>` values recovered by
`downcast_ref`/`downcast_mut`; the closed set of concrete component types is
modelled as one inductive, with the numeric kind (`usize`/`i32`/`i64`/`f32`/
`f64`) carried as a tag so that a downcast to the wrong monomorphisation
fails in the model exactly as it panics in the source. -/

/-- The closed set of numeric kinds implementing `common::Number`. -/
inductive NumKind where
  | usize
  | i32
  | i64
  | f32
  | f64
deriving DecidableEq, Repr

/-- The concrete `common::Component` implementations stored in the tables:
`EnumStringRepr`, `Button`, `Var<bool>`, `Var<T: Number>`, `RangedVar<T>`. -/
inductive Component where
  | enumStringRepr (value : String) (values : List String)
  | button (pressed : Bool)
  | varBool (value : Bool)
  | var (kind : NumKind) (value : ℚ)
  | rangedVar (kind : NumKind) (value : ℚ) (min_max : ℚ × ℚ)
deriving DecidableEq, Repr

/-- The component table `LinkedHashMap<String, Box<dyn Component>>`. -/
abbrev Components := List (String × Component)

/-! ## Messages (`common.rs`) -/

/-- `common::ToGuiLoopMessage`. The five `AddVar*` (resp. `AddRangedVar*`)
numeric variants are represented by one constructor carrying the `NumKind`
tag. `AddWidget2` carries the `ImageRgba8` it is constructed with in
`manager.rs` and consumed with in `AddWidget2::update_gui`. -/
inductive ToGuiLoopMessage where
  | addEnumStringRepr (label : String) (value : String) (values : List String)
  | addButton (label : String)
  | addVarBool (label : String) (value : Bool)
  | addVar (kind : NumKind) (label : String) (value : ℚ)
  | addRangedVar (kind : NumKind) (label : String) (value : ℚ) (min_max : ℚ × ℚ)
  | addWidget2 (label : String) (image : ImageRgba8)
  | addWidget3 (label : String)
  | placeEntity3 (widget_label : String) (named_entity : NamedEntity3)
  | deleteComponent (label : String)
  | updateScenePoseEntity3 (widget_label : String) (entity_label : String)
      (scene_pose_entity : Isometry3)
deriving DecidableEq, Repr

/-- `common::FromGuiLoopMessage`, with the five `UpdateRangedValue*` numeric
variants represented by one constructor carrying the `NumKind` tag. -/
inductive FromGuiLoopMessage where
  | updateEnumStringRepr (label : String) (value : String)
  | updateValueBool (label : String) (value : Bool)
  | updateRangedValue (kind : NumKind) (label : String) (value : ℚ)
  | updateButton (label : String)
deriving DecidableEq, Repr

/-- `FromGuiLoopMessage::update`: apply a presentation→control message to the
control-side mirror. Each arm fetches the named slot with `get_mut` and
downcasts; a missing slot or a wrong downcast is a panic, modelled as `none`.
`UpdateButton` sets `pressed` to `true`; the value updates overwrite the cached
value and (for sliders) leave `min_max` untouched. -/
def FromGuiLoopMessage.update : FromGuiLoopMessage → Components → Option Components
  | .updateEnumStringRepr label value, cs =>
    updateEntry label
      (fun c => match c with
        | .enumStringRepr _ values => some (.enumStringRepr value values)
        | _ => none) cs
  | .updateValueBool label value, cs =>
    updateEntry label
      (fun c => match c with
        | .varBool _ => some (.varBool value)
        | _ => none) cs
  | .updateRangedValue kind label value, cs =>
    updateEntry label
      (fun c => match c with
        | .rangedVar k _ mm => if k = kind then some (.rangedVar k value mm) else none
        | _ => none) cs
  | .updateButton label, cs =>
    updateEntry label
      (fun c => match c with
        | .button _ => some (.button true)
        | _ => none) cs

/-! ## Control side: `Shared`, the handles, and `sync_with_gui` (`manager.rs`) -/

/-- `manager::Shared`: the control-side mirror table plus the outbound
message queue (a `VecDeque` pushed at the back, popped at the front). -/
structure Shared where
  components : Components
  message_queue : List ToGuiLoopMessage
deriving DecidableEq, Repr

/-- `manager::UiButton` handle. -/
structure UiButton where
  label : String
deriving DecidableEq, Repr

/-- `manager::UiVar<bool>` handle: label plus the per-handle last-seen stamp. -/
structure UiVarBool where
  label : String
  cache : Bool
deriving DecidableEq, Repr

/-- `manager::UiVar<T: Number>` handle. -/
structure UiVar where
  kind : NumKind
  label : String
  cache : ℚ
deriving DecidableEq, Repr

/-- `manager::UiRangedVar<T: Number>` handle. -/
structure UiRangedVar where
  kind : NumKind
  label : String
  cache : ℚ
deriving DecidableEq, Repr

/-- `manager::UiEnum<T>` handle. -/
structure UiEnum (α : Type) where
  label : String
  cache : α

/-- The operations the Rust trait bounds give a `UiEnum` value type `T`:
`strum::VariantNames`, `ToString` and `FromStr`. -/
structure EnumOps (α : Type) where
  variants : List String
  toStr : α → String
  fromStr : String → Option α

/-- `UiButton::new`: queue one `AddButton` message and register an unpressed
button in the mirror. -/
def UiButton.new (s : Shared) (label : String) : UiButton × Shared :=
  let s1 := { s with message_queue := s.message_queue ++ [ToGuiLoopMessage.addButton label] }
  let s2 := { s1 with components := insertEntry label (Component.button false) s1.components }
  ({ label := label }, s2)

/-- `UiButton::was_pressed`: read the mirrored `pressed` flag and reset it to
`false` when it was set. -/
def UiButton.was_pressed (s : Shared) (h : UiButton) : Option (Bool × Shared) :=
  match lookupEntry h.label s.components with
  | some (Component.button pressed) =>
    if pressed then
      (updateEntry h.label
        (fun c => match c with
          | Component.button _ => some (Component.button false)
          | _ => none) s.components).map
        fun cs => (true, { s with components := cs })
    else some (false, s)
  | _ => none

/-- `UiVar::<bool>::new`. -/
def UiVarBool.new (s : Shared) (label : String) (value : Bool) : UiVarBool × Shared :=
  let s1 := { s with
    message_queue := s.message_queue ++ [ToGuiLoopMessage.addVarBool label value] }
  let s2 := { s1 with components := insertEntry label (Component.varBool value) s1.components }
  ({ label := label, cache := value }, s2)

/-- `UiVar::<bool>::get_value`: read the mirrored value and refresh the
per-handle stamp. -/
def UiVarBool.get_value (s : Shared) (h : UiVarBool) : Option (Bool × UiVarBool) :=
  match lookupEntry h.label s.components with
  | some (Component.varBool value) => some (value, { h with cache := value })
  | _ => none

/-- `UiVar::<bool>::get_new_value`: return the mirrored value only if it
differs from the per-handle stamp, refreshing the stamp in that case. -/
def UiVarBool.get_new_value (s : Shared) (h : UiVarBool) :
    Option (Option Bool × UiVarBool) :=
  match lookupEntry h.label s.components with
  | some (Component.varBool value) =>
    if value ≠ h.cache then some (some value, { h with cache := value })
    else some (none, h)
  | _ => none

/-- `UiVar::<T: Number>::new` (the queued message is
`value.add_var_message(label)`, the kind-tagged `AddVar*` variant). -/
def UiVar.new (s : Shared) (kind : NumKind) (label : String) (value : ℚ) :
    UiVar × Shared :=
  let s1 := { s with
    message_queue := s.message_queue ++ [ToGuiLoopMessage.addVar kind label value] }
  let s2 := { s1 with components := insertEntry label (Component.var kind value) s1.components }
  ({ kind := kind, label := label, cache := value }, s2)

/-- `UiVar::<T: Number>::get_value`. -/
def UiVar.get_value (s : Shared) (h : UiVar) : Option (ℚ × UiVar) :=
  match lookupEntry h.label s.components with
  | some (Component.var k value) =>
    if k = h.kind then some (value, { h with cache := value }) else none
  | _ => none

/-- `UiVar::<T: Number>::get_new_value`. -/
def UiVar.get_new_value (s : Shared) (h : UiVar) : Option (Option ℚ × UiVar) :=
  match lookupEntry h.label s.components with
  | some (Component.var k value) =>
    if k = h.kind then
      if value ≠ h.cache then some (some value, { h with cache := value })
      else some (none, h)
    else none
  | _ => none

/-- `UiRangedVar::<T>::new`. -/
def UiRangedVar.new (s : Shared) (kind : NumKind) (label : String) (value : ℚ)
    (min_max : ℚ × ℚ) : UiRangedVar × Shared :=
  let s1 := { s with
    message_queue :=
      s.message_queue ++ [ToGuiLoopMessage.addRangedVar kind label value min_max] }
  let s2 := { s1 with
    components := insertEntry label (Component.rangedVar kind value min_max) s1.components }
  ({ kind := kind, label := label, cache := value }, s2)

/-- `UiRangedVar::<T>::get_value`. -/
def UiRangedVar.get_value (s : Shared) (h : UiRangedVar) :
    Option (ℚ × UiRangedVar) :=
  match lookupEntry h.label s.components with
  | some (Component.rangedVar k value _) =>
    if k = h.kind then some (value, { h with cache := value }) else none
  | _ => none

/-- `UiRangedVar::<T>::get_new_value`. -/
def UiRangedVar.get_new_value (s : Shared) (h : UiRangedVar) :
    Option (Option ℚ × UiRangedVar) :=
  match lookupEntry h.label s.components with
  | some (Component.rangedVar k value _) =>
    if k = h.kind then
      if value ≠ h.cache then some (some value, { h with cache := value })
      else some (none, h)
    else none
  | _ => none

/-- `UiEnum::<T>::new`: queue one `AddEnumStringRepr` carrying the string
rendering of the initial value and the closed variant list, and register the
string representation in the mirror. -/
def UiEnum.new {α : Type} (ops : EnumOps α) (s : Shared) (label : String) (value : α) :
    UiEnum α × Shared :=
  let values_map := ops.variants
  let s1 := { s with
    message_queue := s.message_queue ++
      [ToGuiLoopMessage.addEnumStringRepr label (ops.toStr value) values_map] }
  let s2 := { s1 with
    components :=
      insertEntry label (Component.enumStringRepr (ops.toStr value) values_map) s1.components }
  ({ label := label, cache := value }, s2)

/-- `UiEnum::<T>::get_value`: parse the mirrored string back into `T`
(`FromStr::from_str(..).unwrap()`; a parse failure is a panic, `none` here)
and refresh the per-handle stamp. -/
def UiEnum.get_value {α : Type} (ops : EnumOps α) (s : Shared) (h : UiEnum α) :
    Option (α × UiEnum α) :=
  match lookupEntry h.label s.components with
  | some (Component.enumStringRepr value _) =>
    match ops.fromStr value with
    | some v => some (v, { h with cache := v })
    | none => none
  | _ => none

/-- `UiEnum::<T>::get_new_value`. -/
def UiEnum.get_new_value {α : Type} [DecidableEq α] (ops : EnumOps α) (s : Shared)
    (h : UiEnum α) : Option (Option α × UiEnum α) :=
  match lookupEntry h.label s.components with
  | some (Component.enumStringRepr value _) =>
    match ops.fromStr value with
    | some v =>
      if v ≠ h.cache then some (some v, { h with cache := v })
      else some (none, h)
    | none => none
  | _ => none

/-! ## `Manager::sync_with_gui` (`manager.rs`)

The call first loops popping the front of the outbound queue and sending each
message to the gui loop, until the queue is empty; it then drains every
currently available inbound message (`try_iter`, a non-blocking poll) and
applies it to the mirror. The transport is modelled as the ordered list of
messages handed to `to_gui_loop_sender`, and an explicit event trace records
the interleaving of sends and applications. -/

/-- One observable event of a `sync_with_gui` call. -/
inductive SyncEvent where
  | sent (m : ToGuiLoopMessage)
  | applied (m : FromGuiLoopMessage)
deriving DecidableEq, Repr

/-- The first loop of `sync_with_gui`: pop the front of the outbound queue and
send it, until `pop_front` returns `None`. Returns the remaining queue, the
transport log and the trace. -/
def sendOutbound : List ToGuiLoopMessage → List ToGuiLoopMessage → List SyncEvent →
    List ToGuiLoopMessage × List ToGuiLoopMessage × List SyncEvent
  | [], transport, trace => ([], transport, trace)
  | m :: queue, transport, trace =>
    sendOutbound queue (transport ++ [m]) (trace ++ [SyncEvent.sent m])

/-- The second loop of `sync_with_gui`: apply every available inbound message
to the mirror, in arrival order. `none` models the panic when an update
targets a missing or wrongly-typed slot. -/
def applyInbound : List FromGuiLoopMessage → Components → List SyncEvent →
    Option (Components × List SyncEvent)
  | [], cs, trace => some (cs, trace)
  | m :: ms, cs, trace =>
    match m.update cs with
    | none => none
    | some cs2 => applyInbound ms cs2 (trace ++ [SyncEvent.applied m])

/-- Sequential application of inbound messages, without the trace; the
reference fold the `sync_with_gui` theorem compares against. -/
def applyAll : List FromGuiLoopMessage → Components → Option Components
  | [], cs => some cs
  | m :: ms, cs =>
    match m.update cs with
    | none => none
    | some cs2 => applyAll ms cs2

/-- `Manager::sync_with_gui`, given the messages currently available on the
inbound channel. Returns the new shared state, the transport log and the
event trace (or `none` on an inbound-apply panic). -/
def sync_with_gui (s : Shared) (transport : List ToGuiLoopMessage)
    (inbound : List FromGuiLoopMessage) :
    Option (Shared × List ToGuiLoopMessage × List SyncEvent) :=
  match sendOutbound s.message_queue transport [] with
  | (queue2, transport2, trace1) =>
    match applyInbound inbound s.components trace1 with
    | none => none
    | some (cs, trace) =>
      some ({ components := cs, message_queue := queue2 }, transport2, trace)

/-! ## Presentation side (`gui.rs`, `common.rs`): widgets and `update_gui` -/

/-- `common::Widget2` (the GPU texture handle is render state outside this
embedding; the layout only consumes the aspect ratio). -/
structure Widget2 where
  aspect_ratio : ℚ
deriving DecidableEq, Repr

/-- `common::Widget3`: the camera pose and the insertion-ordered named entity
table (render pipeline state is outside the embedding; the aspect ratio is
fixed at `640/480` by `Widget3::new`). -/
structure Widget3 where
  camera_pose_scene : Isometry3
  entities : List (String × NamedEntity3)
  aspect_ratio : ℚ
deriving DecidableEq, Repr

/-- `Widget3::new`. -/
def Widget3.new : Widget3 :=
  { camera_pose_scene :=
      { qi := 0, qj := 0, qk := 0, qw := 1, tx := 0, ty := 0, tz := -4 },
    entities := [],
    aspect_ratio := 640 / 480 }

/-- The concrete `common::Widget` implementations stored in
`GuiData.widgets`. -/
inductive Widget where
  | widget2 (w : Widget2)
  | widget3 (w : Widget3)
deriving DecidableEq, Repr

/-- `Widget::aspect_ratio`. -/
def Widget.aspect_ratio : Widget → ℚ
  | .widget2 w => w.aspect_ratio
  | .widget3 w => w.aspect_ratio

/-- `gui::GuiData`: the authoritative presentation-side tables. -/
structure GuiData where
  components : Components
  widgets : List (String × Widget)
deriving DecidableEq, Repr

/-- `ToGuiLoopMessage::update_gui`: apply a control→presentation message to the
authoritative store. The `Add*` messages insert-or-replace; `PlaceEntity3`
requires the target panel to exist (`unwrap`, hence `none` on a missing or
non-3d panel) and insert-or-replaces the named entity; `DeleteComponent`
removes silently; `UpdateScenePoseEntity3` requires the panel but is a silent
no-op when the named entity is absent. -/
def ToGuiLoopMessage.update_gui : ToGuiLoopMessage → GuiData → Option GuiData
  | .addEnumStringRepr label value values, d =>
    some { d with
      components := insertEntry label (Component.enumStringRepr value values) d.components }
  | .addButton label, d =>
    some { d with components := insertEntry label (Component.button false) d.components }
  | .addVarBool label value, d =>
    some { d with components := insertEntry label (Component.varBool value) d.components }
  | .addVar kind label value, d =>
    some { d with components := insertEntry label (Component.var kind value) d.components }
  | .addRangedVar kind label value min_max, d =>
    some { d with
      components := insertEntry label (Component.rangedVar kind value min_max) d.components }
  | .addWidget2 label image, d =>
    some { d with
      widgets :=
        insertEntry label
          (Widget.widget2 { aspect_ratio := (image.width : ℚ) / (image.height : ℚ) })
          d.widgets }
  | .addWidget3 label, d =>
    some { d with widgets := insertEntry label (Widget.widget3 Widget3.new) d.widgets }
  | .placeEntity3 widget_label named_entity, d =>
    (updateEntry widget_label
      (fun w => match w with
        | Widget.widget3 w3 =>
          some (Widget.widget3
            { w3 with entities := insertEntry named_entity.label named_entity w3.entities })
        | _ => none) d.widgets).map
      fun ws => { d with widgets := ws }
  | .deleteComponent label, d =>
    some { d with components := removeEntry label d.components }
  | .updateScenePoseEntity3 widget_label entity_label scene_pose_entity, d =>
    (updateEntry widget_label
      (fun w => match w with
        | Widget.widget3 w3 =>
          match updateEntry entity_label
            (fun ne => some { ne with scene_pose_entity := scene_pose_entity })
            w3.entities with
          | none => some (Widget.widget3 w3)
          | some es => some (Widget.widget3 { w3 with entities := es })
        | _ => none) d.widgets).map
      fun ws => { d with widgets := ws }

/-! ## Central-panel widget layout (`gui.rs`, `GuiLoop::draw`) -/

/-- The shared cell aspect ratio computed by `GuiLoop::draw` from the sorted
aspect ratios: `sorted[n/2]` for odd `n`, and
`0.5 * sorted[n/2] + 0.5 * sorted[n/2 + 1]` for even `n`; an out-of-bounds
index (a Rust panic) is `none`. -/
def medianAspectRatioOfSorted (sorted : List ℚ) : Option ℚ :=
  let n := sorted.length
  if n % 2 = 1 then sorted.get? (n / 2)
  else
    match sorted.get? (n / 2), sorted.get? (n / 2 + 1) with
    | some a, some b => some ((1 / 2 : ℚ) * a + (1 / 2 : ℚ) * b)
    | _, _ => none

/-- The median of a sorted list as the specification words it ("the median
aspect ratio across all current widgets"): the middle element for odd length,
the mean of the two middle elements (`sorted[n/2 - 1]`, `sorted[n/2]`) for
even length. -/
def medianOfSortedSpec (sorted : List ℚ) : Option ℚ :=
  let n := sorted.length
  if n % 2 = 1 then sorted.get? (n / 2)
  else
    match sorted.get? (n / 2 - 1), sorted.get? (n / 2) with
    | some a, some b => some ((1 / 2 : ℚ) * a + (1 / 2 : ℚ) * b)
    | _, _ => none

/-- The cell size tried for a given column count: `num_rows = ceil(n / cols)`,
`w = available_width / cols`, `h = min(w / mar, available_height / num_rows)`,
then `w = mar * h`. -/
def cellForCols (available_width available_height mar : ℚ) (n num_cols : Nat) : ℚ × ℚ :=
  let num_rows : ℚ := (Int.ceil ((n : ℚ) / (num_cols : ℚ)) : ℚ)
  let w := available_width / (num_cols : ℚ)
  let h := min (w / mar) (available_height / num_rows)
  (mar * h, h)

/-- The discrete search of `GuiLoop::draw` over column counts `1..=n`,
keeping the `(max_width, max_height)` pair of the best fit. -/
def maxCellLoop (available_width available_height mar : ℚ) (n : Nat) : ℚ × ℚ :=
  (List.range' 1 n).foldl
    (fun acc num_cols =>
      let wh := cellForCols available_width available_height mar n num_cols
      if wh.1 > acc.1 then wh else acc)
    (0, 0)

/-- The central-panel layout of `GuiLoop::draw` for a non-empty widget list:
sort the aspect ratios, take the shared cell aspect ratio, then search the
column counts. `none` is the out-of-bounds panic of the aspect-ratio
computation. -/
def computeWidgetLayout (widgets : List Widget) (available_width available_height : ℚ) :
    Option (ℚ × ℚ) :=
  let ratios := widgets.map Widget.aspect_ratio
  let sorted := List.insertionSort (· ≤ ·) ratios
  match medianAspectRatioOfSorted sorted with
  | none => none
  | some mar => some (maxCellLoop available_width available_height mar widgets.length)

/-! ## JSON wire format (`serde_json` over the two message enums)

Each direction's batch is serialized as a JSON array of externally-tagged
variants (`{"VariantName": {field: value, ...}}`, serde's default for these
enums); tuples and fixed-size arrays become JSON arrays. The wire format is
modelled at the level of the JSON document tree, with numbers carried
exactly as `ℚ`. -/

/-- A JSON document. -/
inductive Json where
  | null
  | bool (b : Bool)
  | num (q : ℚ)
  | str (s : String)
  | arr (elems : List Json)
  | obj (fields : List (String × Json))

/-- Encode a `bool`. -/
def encBool (b : Bool) : Json := Json.bool b

/-- Decode a `bool`. -/
def decBool : Json → Option Bool
  | Json.bool b => some b
  | _ => none

/-- Encode a (rational-modelled) floating-point number. -/
def encQ (q : ℚ) : Json := Json.num q

/-- Decode a (rational-modelled) floating-point number. -/
def decQ : Json → Option ℚ
  | Json.num q => some q
  | _ => none

/-- Encode a signed machine integer. -/
def encInt (i : Int) : Json := Json.num (i : ℚ)

/-- Decode a signed machine integer. -/
def decInt : Json → Option Int
  | Json.num q => if q.den = 1 then some q.num else none
  | _ => none

/-- Encode an unsigned machine integer. -/
def encNat (n : Nat) : Json := Json.num (n : ℚ)

/-- Decode an unsigned machine integer. -/
def decNat : Json → Option Nat
  | Json.num q => if q.den = 1 ∧ 0 ≤ q.num then some q.num.toNat else none
  | _ => none

/-- Encode a string. -/
def encStr (s : String) : Json := Json.str s

/-- Decode a string. -/
def decStr : Json → Option String
  | Json.str s => some s
  | _ => none

/-- Encode a `Vec`/array as a JSON array. -/
def encList {α : Type} (f : α → Json) (xs : List α) : Json := Json.arr (xs.map f)

/-- Decode a JSON array elementwise. -/
def decList {α : Type} (f : Json → Option α) : Json → Option (List α)
  | Json.arr xs => xs.mapM f
  | _ => none

/-- Encode `Isometry3` the way `nalgebra` serializes an `Isometry3<f32>`:
rotation quaternion coefficients and translation vector. -/
def encIsometry3 (p : Isometry3) : Json :=
  Json.obj
    [("rotation", Json.arr [encQ p.qi, encQ p.qj, encQ p.qk, encQ p.qw]),
     ("translation", Json.arr [encQ p.tx, encQ p.ty, encQ p.tz])]

/-- Decode `Isometry3`. -/
def decIsometry3 : Json → Option Isometry3
  | Json.obj
      [("rotation", Json.arr [a, b, c, d]), ("translation", Json.arr [x, y, z])] => do
    let qi ← decQ a
    let qj ← decQ b
    let qk ← decQ c
    let qw ← decQ d
    let tx ← decQ x
    let ty ← decQ y
    let tz ← decQ z
    some { qi := qi, qj := qj, qk := qk, qw := qw, tx := tx, ty := ty, tz := tz }
  | _ => none

/-- Encode a `[f32; 7]` vertex. -/
def encVertex7 (v : Vertex7) : Json :=
  Json.arr [encQ v.v0, encQ v.v1, encQ v.v2, encQ v.v3, encQ v.v4, encQ v.v5, encQ v.v6]

/-- Decode a `[f32; 7]` vertex. -/
def decVertex7 : Json → Option Vertex7
  | Json.arr [a0, a1, a2, a3, a4, a5, a6] => do
    let b0 ← decQ a0
    let b1 ← decQ a1
    let b2 ← decQ a2
    let b3 ← decQ a3
    let b4 ← decQ a4
    let b5 ← decQ a5
    let b6 ← decQ a6
    some { v0 := b0, v1 := b1, v2 := b2, v3 := b3, v4 := b4, v5 := b5, v6 := b6 }
  | _ => none

/-- Encode a `[f32; 5]` vertex. -/
def encVertex5 (v : Vertex5) : Json :=
  Json.arr [encQ v.v0, encQ v.v1, encQ v.v2, encQ v.v3, encQ v.v4]

/-- Decode a `[f32; 5]` vertex. -/
def decVertex5 : Json → Option Vertex5
  | Json.arr [a0, a1, a2, a3, a4] => do
    let b0 ← decQ a0
    let b1 ← decQ a1
    let b2 ← decQ a2
    let b3 ← decQ a3
    let b4 ← decQ a4
    some { v0 := b0, v1 := b1, v2 := b2, v3 := b3, v4 := b4 }
  | _ => none

/-- Encode a `[i16; 3]` face. -/
def encFace3 (f : Face3) : Json := Json.arr [encInt f.i0, encInt f.i1, encInt f.i2]

/-- Decode a `[i16; 3]` face. -/
def decFace3 : Json → Option Face3
  | Json.arr [a, b, c] => do
    let i0 ← decInt a
    let i1 ← decInt b
    let i2 ← decInt c
    some { i0 := i0, i1 := i1, i2 := i2 }
  | _ => none

/-- Encode a `[i16; 2]` index pair. -/
def encSeg2 (s : Seg2) : Json := Json.arr [encInt s.i0, encInt s.i1]

/-- Decode a `[i16; 2]` index pair. -/
def decSeg2 : Json → Option Seg2
  | Json.arr [a, b] => do
    let i0 ← decInt a
    let i1 ← decInt b
    some { i0 := i0, i1 := i1 }
  | _ => none

/-- Encode `PositionColorVertices`. -/
def encPositionColorVertices (v : PositionColorVertices) : Json :=
  Json.obj [("vertices", encList encVertex7 v.vertices)]

/-- Decode `PositionColorVertices`. -/
def decPositionColorVertices : Json → Option PositionColorVertices
  | Json.obj [("vertices", vs)] => do
    let vertices ← decList decVertex7 vs
    some { vertices := vertices }
  | _ => none

/-- Encode `PositionUvVertices`. -/
def encPositionUvVertices (v : PositionUvVertices) : Json :=
  Json.obj [("vertices", encList encVertex5 v.vertices)]

/-- Decode `PositionUvVertices`. -/
def decPositionUvVertices : Json → Option PositionUvVertices
  | Json.obj [("vertices", vs)] => do
    let vertices ← decList decVertex5 vs
    some { vertices := vertices }
  | _ => none

/-- Encode the empty `Texture` marker struct (a unit struct serializes as
`null`). -/
def encTexture (_t : Texture) : Json := Json.null

/-- Decode `Texture`. -/
def decTexture : Json → Option Texture
  | Json.null => some Texture.mk
  | _ => none

/-- Encode `PositionUvVerticesAndTexture`. -/
def encPositionUvVerticesAndTexture (v : PositionUvVerticesAndTexture) : Json :=
  Json.obj
    [("vertices", encPositionUvVertices v.vertices), ("texture", encTexture v.texture)]

/-- Decode `PositionUvVerticesAndTexture`. -/
def decPositionUvVerticesAndTexture : Json → Option PositionUvVerticesAndTexture
  | Json.obj [("vertices", vs), ("texture", t)] => do
    let vertices ← decPositionUvVertices vs
    let texture ← decTexture t
    some { vertices := vertices, texture := texture }
  | _ => none

/-- Encode `MeshVertices` (externally tagged). -/
def encMeshVertices : MeshVertices → Json
  | .positionColor v => Json.obj [("PositionColor", encPositionColorVertices v)]
  | .positionUvAndTexture v =>
    Json.obj [("PositionUvAndTexture", encPositionUvVerticesAndTexture v)]

/-- Decode `MeshVertices`. -/
def decMeshVertices : Json → Option MeshVertices
  | Json.obj [(tag, payload)] =>
    if tag = "PositionColor" then
      (decPositionColorVertices payload).map MeshVertices.positionColor
    else if tag = "PositionUvAndTexture" then
      (decPositionUvVerticesAndTexture payload).map MeshVertices.positionUvAndTexture
    else none
  | _ => none

/-- Encode `Faces`. -/
def encFaces (f : Faces) : Json := Json.obj [("indices", encList encFace3 f.indices)]

/-- Decode `Faces`. -/
def decFaces : Json → Option Faces
  | Json.obj [("indices", is)] => do
    let indices ← decList decFace3 is
    some { indices := indices }
  | _ => none

/-- Encode `Mesh3`. -/
def encMesh3 (m : Mesh3) : Json :=
  Json.obj [("vertices", encMeshVertices m.vertices), ("faces", encFaces m.faces)]

/-- Decode `Mesh3`. -/
def decMesh3 : Json → Option Mesh3
  | Json.obj [("vertices", vs), ("faces", fs)] => do
    let vertices ← decMeshVertices vs
    let faces ← decFaces fs
    some { vertices := vertices, faces := faces }
  | _ => none

/-- Encode `LineSegments3`. -/
def encLineSegments3 (s : LineSegments3) : Json :=
  Json.obj
    [("vertices", encPositionColorVertices s.vertices),
     ("indices", encList encSeg2 s.indices)]

/-- Decode `LineSegments3`. -/
def decLineSegments3 : Json → Option LineSegments3
  | Json.obj [("vertices", vs), ("indices", is)] => do
    let vertices ← decPositionColorVertices vs
    let indices ← decList decSeg2 is
    some { vertices := vertices, indices := indices }
  | _ => none

/-- Encode `Entity3` (externally tagged). -/
def encEntity3 : Entity3 → Json
  | .mesh m => Json.obj [("Mesh", encMesh3 m)]
  | .lineSegments s => Json.obj [("LineSegments", encLineSegments3 s)]

/-- Decode `Entity3`. -/
def decEntity3 : Json → Option Entity3
  | Json.obj [(tag, payload)] =>
    if tag = "Mesh" then (decMesh3 payload).map Entity3.mesh
    else if tag = "LineSegments" then (decLineSegments3 payload).map Entity3.lineSegments
    else none
  | _ => none

/-- Encode `NamedEntity3`. -/
def encNamedEntity3 (ne : NamedEntity3) : Json :=
  Json.obj
    [("label", encStr ne.label),
     ("entity", encEntity3 ne.entity),
     ("scene_pose_entity", encIsometry3 ne.scene_pose_entity)]

/-- Decode `NamedEntity3`. -/
def decNamedEntity3 : Json → Option NamedEntity3
  | Json.obj [("label", l), ("entity", e), ("scene_pose_entity", p)] => do
    let label ← decStr l
    let entity ← decEntity3 e
    let scene_pose_entity ← decIsometry3 p
    some { label := label, entity := entity, scene_pose_entity := scene_pose_entity }
  | _ => none

/-- Encode `ImageRgba8` (field order as declared in `common.rs`). -/
def encImageRgba8 (img : ImageRgba8) : Json :=
  Json.obj
    [("bytes", encList encNat img.bytes),
     ("width", encNat img.width),
     ("height", encNat img.height)]

/-- Decode `ImageRgba8`. -/
def decImageRgba8 : Json → Option ImageRgba8
  | Json.obj [("bytes", bs), ("width", w), ("height", h)] => do
    let bytes ← decList decNat bs
    let width ← decNat w
    let height ← decNat h
    some { bytes := bytes, width := width, height := height }
  | _ => none

/-- The serde variant tag of an `AddVar*` message for a numeric kind. -/
def NumKind.varTag : NumKind → String
  | .usize => "AddVarUSize"
  | .i32 => "AddVarI32"
  | .i64 => "AddVarI64"
  | .f32 => "AddVarF32"
  | .f64 => "AddVarF64"

/-- The numeric kind of an `AddVar*` variant tag. -/
def numKindOfVarTag (tag : String) : Option NumKind :=
  if tag = "AddVarUSize" then some NumKind.usize
  else if tag = "AddVarI32" then some NumKind.i32
  else if tag = "AddVarI64" then some NumKind.i64
  else if tag = "AddVarF32" then some NumKind.f32
  else if tag = "AddVarF64" then some NumKind.f64
  else none

/-- The serde variant tag of an `AddRangedVar*` message for a numeric kind. -/
def NumKind.rangedVarTag : NumKind → String
  | .usize => "AddRangedVarUSize"
  | .i32 => "AddRangedVarI32"
  | .i64 => "AddRangedVarI64"
  | .f32 => "AddRangedVarF32"
  | .f64 => "AddRangedVarF64"

/-- The numeric kind of an `AddRangedVar*` variant tag. -/
def numKindOfRangedVarTag (tag : String) : Option NumKind :=
  if tag = "AddRangedVarUSize" then some NumKind.usize
  else if tag = "AddRangedVarI32" then some NumKind.i32
  else if tag = "AddRangedVarI64" then some NumKind.i64
  else if tag = "AddRangedVarF32" then some NumKind.f32
  else if tag = "AddRangedVarF64" then some NumKind.f64
  else none

/-- The serde variant tag of an `UpdateRangedValue*` message for a numeric
kind. -/
def NumKind.rangedValueTag : NumKind → String
  | .usize => "UpdateRangedValueUSize"
  | .i32 => "UpdateRangedValueI32"
  | .i64 => "UpdateRangedValueI64"
  | .f32 => "UpdateRangedValueF32"
  | .f64 => "UpdateRangedValueF64"

/-- The numeric kind of an `UpdateRangedValue*` variant tag. -/
def numKindOfRangedValueTag (tag : String) : Option NumKind :=
  if tag = "UpdateRangedValueUSize" then some NumKind.usize
  else if tag = "UpdateRangedValueI32" then some NumKind.i32
  else if tag = "UpdateRangedValueI64" then some NumKind.i64
  else if tag = "UpdateRangedValueF32" then some NumKind.f32
  else if tag = "UpdateRangedValueF64" then some NumKind.f64
  else none

/-- Encode one `ToGuiLoopMessage` as an externally-tagged JSON variant, the
field names and order taken from the struct declarations in `common.rs`. -/
def encToGuiLoopMessage : ToGuiLoopMessage → Json
  | .addEnumStringRepr label value values =>
    Json.obj
      [("AddEnumStringRepr",
        Json.obj
          [("label", encStr label), ("value", encStr value),
           ("values", encList encStr values)])]
  | .addButton label =>
    Json.obj [("AddButton", Json.obj [("label", encStr label)])]
  | .addVarBool label value =>
    Json.obj [("AddVarBool", Json.obj [("label", encStr label), ("value", encBool value)])]
  | .addVar kind label value =>
    Json.obj [(kind.varTag, Json.obj [("label", encStr label), ("value", encQ value)])]
  | .addRangedVar kind label value min_max =>
    Json.obj
      [(kind.rangedVarTag,
        Json.obj
          [("label", encStr label), ("value", encQ value),
           ("min_max", Json.arr [encQ min_max.1, encQ min_max.2])])]
  | .addWidget2 label image =>
    Json.obj
      [("AddWidget2", Json.obj [("label", encStr label), ("image", encImageRgba8 image)])]
  | .addWidget3 label =>
    Json.obj [("AddWidget3", Json.obj [("label", encStr label)])]
  | .placeEntity3 widget_label named_entity =>
    Json.obj
      [("PlaceEntity3",
        Json.obj
          [("widget_label", encStr widget_label),
           ("named_entity", encNamedEntity3 named_entity)])]
  | .deleteComponent label =>
    Json.obj [("DeleteComponent", Json.obj [("label", encStr label)])]
  | .updateScenePoseEntity3 widget_label entity_label scene_pose_entity =>
    Json.obj
      [("UpdateScenePoseEntity3",
        Json.obj
          [("widget_label", encStr widget_label), ("entity_label", encStr entity_label),
           ("scene_pose_entity", encIsometry3 scene_pose_entity)])]

/-- Decode one externally-tagged `ToGuiLoopMessage`. -/
def decToGuiLoopMessage : Json → Option ToGuiLoopMessage
  | Json.obj [(tag, payload)] =>
    if tag = "AddEnumStringRepr" then
      match payload with
      | Json.obj [("label", l), ("value", v), ("values", vs)] => do
        let label ← decStr l
        let value ← decStr v
        let values ← decList decStr vs
        some (ToGuiLoopMessage.addEnumStringRepr label value values)
      | _ => none
    else if tag = "AddButton" then
      match payload with
      | Json.obj [("label", l)] => do
        let label ← decStr l
        some (ToGuiLoopMessage.addButton label)
      | _ => none
    else if tag = "AddVarBool" then
      match payload with
      | Json.obj [("label", l), ("value", v)] => do
        let label ← decStr l
        let value ← decBool v
        some (ToGuiLoopMessage.addVarBool label value)
      | _ => none
    else if tag = "AddWidget2" then
      match payload with
      | Json.obj [("label", l), ("image", img)] => do
        let label ← decStr l
        let image ← decImageRgba8 img
        some (ToGuiLoopMessage.addWidget2 label image)
      | _ => none
    else if tag = "AddWidget3" then
      match payload with
      | Json.obj [("label", l)] => do
        let label ← decStr l
        some (ToGuiLoopMessage.addWidget3 label)
      | _ => none
    else if tag = "PlaceEntity3" then
      match payload with
      | Json.obj [("widget_label", wl), ("named_entity", ne)] => do
        let widget_label ← decStr wl
        let named_entity ← decNamedEntity3 ne
        some (ToGuiLoopMessage.placeEntity3 widget_label named_entity)
      | _ => none
    else if tag = "DeleteComponent" then
      match payload with
      | Json.obj [("label", l)] => do
        let label ← decStr l
        some (ToGuiLoopMessage.deleteComponent label)
      | _ => none
    else if tag = "UpdateScenePoseEntity3" then
      match payload with
      | Json.obj
          [("widget_label", wl), ("entity_label", el), ("scene_pose_entity", p)] => do
        let widget_label ← decStr wl
        let entity_label ← decStr el
        let scene_pose_entity ← decIsometry3 p
        some (ToGuiLoopMessage.updateScenePoseEntity3 widget_label entity_label
          scene_pose_entity)
      | _ => none
    else
      match numKindOfVarTag tag with
      | some kind =>
        match payload with
        | Json.obj [("label", l), ("value", v)] => do
          let label ← decStr l
          let value ← decQ v
          some (ToGuiLoopMessage.addVar kind label value)
        | _ => none
      | none =>
        match numKindOfRangedVarTag tag with
        | some kind =>
          match payload with
          | Json.obj [("label", l), ("value", v), ("min_max", Json.arr [mn, mx])] => do
            let label ← decStr l
            let value ← decQ v
            let lo ← decQ mn
            let hi ← decQ mx
            some (ToGuiLoopMessage.addRangedVar kind label value (lo, hi))
          | _ => none
        | none => none
  | _ => none

/-- Encode one `FromGuiLoopMessage` as an externally-tagged JSON variant. -/
def encFromGuiLoopMessage : FromGuiLoopMessage → Json
  | .updateEnumStringRepr label value =>
    Json.obj
      [("UpdateEnumStringRepr",
        Json.obj [("label", encStr label), ("value", encStr value)])]
  | .updateValueBool label value =>
    Json.obj
      [("UpdateValueBool", Json.obj [("label", encStr label), ("value", encBool value)])]
  | .updateRangedValue kind label value =>
    Json.obj
      [(kind.rangedValueTag, Json.obj [("label", encStr label), ("value", encQ value)])]
  | .updateButton label =>
    Json.obj [("UpdateButton", Json.obj [("label", encStr label)])]

/-- Decode one externally-tagged `FromGuiLoopMessage`. -/
def decFromGuiLoopMessage : Json → Option FromGuiLoopMessage
  | Json.obj [(tag, payload)] =>
    if tag = "UpdateEnumStringRepr" then
      match payload with
      | Json.obj [("label", l), ("value", v)] => do
        let label ← decStr l
        let value ← decStr v
        some (FromGuiLoopMessage.updateEnumStringRepr label value)
      | _ => none
    else if tag = "UpdateValueBool" then
      match payload with
      | Json.obj [("label", l), ("value", v)] => do
        let label ← decStr l
        let value ← decBool v
        some (FromGuiLoopMessage.updateValueBool label value)
      | _ => none
    else if tag = "UpdateButton" then
      match payload with
      | Json.obj [("label", l)] => do
        let label ← decStr l
        some (FromGuiLoopMessage.updateButton label)
      | _ => none
    else
      match numKindOfRangedValueTag tag with
      | some kind =>
        match payload with
        | Json.obj [("label", l), ("value", v)] => do
          let label ← decStr l
          let value ← decQ v
          some (FromGuiLoopMessage.updateRangedValue kind label value)
        | _ => none
      | none => none
  | _ => none

/-- A control→presentation batch: a JSON array of tagged variants. -/
def encToGuiBatch (ms : List ToGuiLoopMessage) : Json :=
  Json.arr (ms.map encToGuiLoopMessage)

/-- Decode a control→presentation batch. -/
def decToGuiBatch : Json → Option (List ToGuiLoopMessage)
  | Json.arr xs => xs.mapM decToGuiLoopMessage
  | _ => none

/-- A presentation→control batch: a JSON array of tagged variants. -/
def encFromGuiBatch (ms : List FromGuiLoopMessage) : Json :=
  Json.arr (ms.map encFromGuiLoopMessage)

/-- Decode a presentation→control batch. -/
def decFromGuiBatch : Json → Option (List FromGuiLoopMessage)
  | Json.arr xs => xs.mapM decFromGuiLoopMessage
  | _ => none

/-! ## Concrete value types for witnesses -/

/-- `Shared::default()`. -/
def Shared.defaultState : Shared := { components := [], message_queue := [] }

/-- The example enum of the specification scenarios (variants `Foo`, `Bar`,
`Daz`), used to instantiate the generic enum handle. -/
inductive TestMode where
  | foo
  | bar
  | daz
deriving DecidableEq, Repr

/-- `Display`/`ToString` rendering of `TestMode`. -/
def TestMode.toStr : TestMode → String
  | .foo => "Foo"
  | .bar => "Bar"
  | .daz => "Daz"

/-- `FromStr` parsing of `TestMode`. -/
def TestMode.fromStr (s : String) : Option TestMode :=
  if s = "Foo" then some TestMode.foo
  else if s = "Bar" then some TestMode.bar
  else if s = "Daz" then some TestMode.daz
  else none

/-- The enum operations dictionary for `TestMode`. -/
def testModeOps : EnumOps TestMode :=
  { variants := ["Foo", "Bar", "Daz"],
    toStr := TestMode.toStr,
    fromStr := TestMode.fromStr }

/-- A small concrete mirror with one slot of each readable component kind. -/
def sampleMirror : Shared :=
  { components :=
      [("r", Component.rangedVar NumKind.f32 3 (0, 10)),
       ("v", Component.var NumKind.i32 5),
       ("b", Component.varBool true),
       ("e", Component.enumStringRepr "Bar" ["Foo", "Bar", "Daz"])],
    message_queue := [] }

/-- A minimal concrete named entity (an empty line-segment set at the
identity pose). -/
def sampleEntity : NamedEntity3 :=
  { label := "A",
    entity := Entity3.lineSegments { vertices := { vertices := [] }, indices := [] },
    scene_pose_entity := Isometry3.identity }

/-- A concrete target pose. -/
def samplePose : Isometry3 :=
  { qi := 0, qj := 0, qk := 0, qw := 1, tx := 1, ty := 2, tz := 3 }

/-- A presentation-side store with one empty 3d panel `"P"`. -/
def sampleGui : GuiData :=
  { components := [], widgets := [("P", Widget.widget3 Widget3.new)] }

/-! ## Store lemmas -/

theorem lookupEntry_insertEntry_self {β : Type} (label : String) (v : β)
    (m : List (String × β)) : lookupEntry label (insertEntry label v m) = some v := by
  induction m with
  | nil => simp [insertEntry, lookupEntry]
  | cons p rest ih =>
    by_cases hk : p.1 = label
    · simp [insertEntry, hk, lookupEntry]
    · simp [insertEntry, hk, lookupEntry, ih]

theorem keys_insertEntry {β : Type} (label : String) (v : β) (m : List (String × β)) :
    (insertEntry label v m).map Prod.fst =
      if containsEntry label m then m.map Prod.fst else m.map Prod.fst ++ [label] := by
  induction m with
  | nil => simp [insertEntry, containsEntry]
  | cons p rest ih =>
    by_cases hk : p.1 = label
    · simp [insertEntry, hk, containsEntry]
    · simp only [insertEntry, hk, if_false, ite_false, containsEntry, List.map_cons, ih]
      by_cases hc : containsEntry label rest
      · simp [hc, hk]
      · simp [hc, hk]

theorem updateEntry_eq_none {β : Type} (label : String) (f : β → Option β)
    (m : List (String × β)) (hl : lookupEntry label m = none) :
    updateEntry label f m = none := by
  induction m with
  | nil => rfl
  | cons p rest ih =>
    by_cases hk : p.1 = label
    · simp [lookupEntry, hk] at hl
    · simp only [lookupEntry, hk, if_false, ite_false] at hl
      simp [updateEntry, hk, ih hl]

theorem updateEntry_of_lookup {β : Type} (label : String) (f : β → Option β)
    (m : List (String × β)) (v v2 : β)
    (hl : lookupEntry label m = some v) (hf : f v = some v2) :
    ∃ m2, updateEntry label f m = some m2 ∧
      lookupEntry label m2 = some v2 ∧
      (∀ k, k ≠ label → lookupEntry k m2 = lookupEntry k m) ∧
      m2.map Prod.fst = m.map Prod.fst := by
  induction m with
  | nil => simp [lookupEntry] at hl
  | cons p rest ih =>
    obtain ⟨k0, w⟩ := p
    by_cases hk : k0 = label
    · simp only [lookupEntry, if_pos hk] at hl
      injection hl with hl
      subst hl
      refine ⟨(k0, v2) :: rest, ?_, ?_, ?_, rfl⟩
      · simp [updateEntry, if_pos hk, hf]
      · simp [lookupEntry, if_pos hk]
      · intro k hkne
        have hk0k : ¬ k0 = k := fun h => hkne (by rw [← h, hk])
        simp [lookupEntry, hk0k]
    · simp only [lookupEntry, if_neg hk] at hl
      obtain ⟨m2, hm2, hlook, hother, hkeys⟩ := ih hl
      refine ⟨(k0, w) :: m2, ?_, ?_, ?_, ?_⟩
      · simp [updateEntry, hk, hm2]
      · simp [lookupEntry, hk, hlook]
      · intro k hkne
        by_cases hkk : k0 = k
        · simp [lookupEntry, hkk]
        · simp [lookupEntry, hkk, hother k hkne]
      · simp [hkeys]

theorem updateEntry_id_of_fix {β : Type} (label : String) (f : β → Option β)
    (m : List (String × β)) (v : β)
    (hl : lookupEntry label m = some v) (hf : f v = some v) :
    updateEntry label f m = some m := by
  induction m with
  | nil => simp [lookupEntry] at hl
  | cons p rest ih =>
    obtain ⟨k0, w⟩ := p
    by_cases hk : k0 = label
    · simp only [lookupEntry, if_pos hk] at hl
      injection hl with hl
      subst hl
      simp [updateEntry, if_pos hk, hf]
    · simp only [lookupEntry, if_neg hk] at hl
      simp [updateEntry, hk, ih hl]

theorem removeEntry_eq_of_lookup_none {β : Type} (label : String)
    (m : List (String × β)) (hl : lookupEntry label m = none) :
    removeEntry label m = m := by
  induction m with
  | nil => rfl
  | cons p rest ih =>
    by_cases hk : p.1 = label
    · simp [lookupEntry, hk] at hl
    · simp only [lookupEntry, hk, ite_false] at hl
      simp [removeEntry, hk, ih hl]

/-! ## `sync_with_gui` lemmas -/

theorem sendOutbound_spec (q transport : List ToGuiLoopMessage) (trace : List SyncEvent) :
    sendOutbound q transport trace =
      ([], transport ++ q, trace ++ q.map SyncEvent.sent) := by
  induction q generalizing transport trace with
  | nil => simp [sendOutbound]
  | cons m q ih => simp [sendOutbound, ih]

theorem applyInbound_spec (ms : List FromGuiLoopMessage) (cs : Components)
    (trace : List SyncEvent) (cs2 : Components) (trace2 : List SyncEvent)
    (h : applyInbound ms cs trace = some (cs2, trace2)) :
    applyAll ms cs = some cs2 ∧ trace2 = trace ++ ms.map SyncEvent.applied := by
  induction ms generalizing cs trace with
  | nil =>
    simp only [applyInbound, Option.some_inj, Prod.mk.injEq] at h
    simp [applyAll, h.1, h.2]
  | cons m ms ih =>
    simp only [applyInbound] at h
    match hu : m.update cs with
    | none => rw [hu] at h; exact absurd h (by simp)
    | some csm =>
      rw [hu] at h
      obtain ⟨h1, h2⟩ := ih csm (trace ++ [SyncEvent.applied m]) h
      refine ⟨by simp [applyAll, hu, h1], by simp [h2]⟩

/-- C2: `sync_with_gui` drains the outbound queue completely, in FIFO order,
to the transport before any inbound message is processed, then applies all
currently available inbound messages to the mirror, in order, before
returning: the transport grows by exactly the old queue, the queue is left
empty, the mirror is the sequential application of the inbound messages, and
the event trace is all sends followed by all applications. -/
theorem sync_with_gui_fifo_drain (s : Shared) (transport : List ToGuiLoopMessage)
    (inbound : List FromGuiLoopMessage) (s2 : Shared)
    (transport2 : List ToGuiLoopMessage) (trace : List SyncEvent)
    (h : sync_with_gui s transport inbound = some (s2, transport2, trace)) :
    transport2 = transport ++ s.message_queue ∧
    s2.message_queue = [] ∧
    applyAll inbound s.components = some s2.components ∧
    trace = s.message_queue.map SyncEvent.sent ++ inbound.map SyncEvent.applied := by
  unfold sync_with_gui at h
  rw [sendOutbound_spec] at h
  simp only [List.nil_append] at h
  match ha : applyInbound inbound s.components (s.message_queue.map SyncEvent.sent) with
  | none => rw [ha] at h; exact absurd h (by simp)
  | some (cs, tr) =>
    rw [ha] at h
    obtain ⟨h1, h2⟩ := applyInbound_spec _ _ _ _ _ ha
    simp only [Option.some_inj, Prod.mk.injEq] at h
    obtain ⟨hs2, htr, htrace⟩ := h
    subst hs2 htr htrace
    exact ⟨rfl, rfl, h1, h2⟩

/-- C2 witness: a concrete run with one queued `AddButton` and one inbound
`UpdateButton`. -/
theorem sync_with_gui_fifo_drain_witness :
    sync_with_gui
        { components := [("b", Component.button false)],
          message_queue := [ToGuiLoopMessage.addButton "b"] }
        [] [FromGuiLoopMessage.updateButton "b"] =
      some ({ components := [("b", Component.button true)], message_queue := [] },
        [ToGuiLoopMessage.addButton "b"],
        [SyncEvent.sent (ToGuiLoopMessage.addButton "b"),
         SyncEvent.applied (FromGuiLoopMessage.updateButton "b")]) ∧
    ([ToGuiLoopMessage.addButton "b"] =
        [] ++ [ToGuiLoopMessage.addButton "b"] ∧
      ([] : List ToGuiLoopMessage) = [] ∧
      applyAll [FromGuiLoopMessage.updateButton "b"] [("b", Component.button false)] =
        some [("b", Component.button true)] ∧
      [SyncEvent.sent (ToGuiLoopMessage.addButton "b"),
       SyncEvent.applied (FromGuiLoopMessage.updateButton "b")] =
        [ToGuiLoopMessage.addButton "b"].map SyncEvent.sent ++
          [FromGuiLoopMessage.updateButton "b"].map SyncEvent.applied) :=
  ⟨by decide,
    sync_with_gui_fifo_drain
      { components := [("b", Component.button false)],
        message_queue := [ToGuiLoopMessage.addButton "b"] }
      [] [FromGuiLoopMessage.updateButton "b"]
      { components := [("b", Component.button true)], message_queue := [] }
      [ToGuiLoopMessage.addButton "b"]
      [SyncEvent.sent (ToGuiLoopMessage.addButton "b"),
       SyncEvent.applied (FromGuiLoopMessage.updateButton "b")]
      (by decide)⟩

/-! ## C1: add operations -/

/-- C1: every add operation (`add_bool`, `add_number`, `add_ranged_value`,
`add_enum`, `add_button`) synchronously registers a mirror entry under its
label — an immediate `get_value` through the returned handle yields the
supplied initial value before any `sync_with_gui` — and appends exactly one
corresponding `Add*` message carrying that initial value to the outbound
queue. -/
theorem add_ops_register_mirror_and_enqueue {α : Type} (ops : EnumOps α)
    (s1 s2 s3 s4 s5 : Shared) (l1 l2 l3 l4 l5 : String) (b : Bool)
    (k3 k4 : NumKind) (q3 q4 mn mx : ℚ) (v : α)
    (hfs : ops.fromStr (ops.toStr v) = some v) :
    ((UiVarBool.new s1 l1 b).2.message_queue =
        s1.message_queue ++ [ToGuiLoopMessage.addVarBool l1 b] ∧
      UiVarBool.get_value (UiVarBool.new s1 l1 b).2 (UiVarBool.new s1 l1 b).1 =
        some (b, (UiVarBool.new s1 l1 b).1)) ∧
    ((UiVar.new s2 k3 l2 q3).2.message_queue =
        s2.message_queue ++ [ToGuiLoopMessage.addVar k3 l2 q3] ∧
      UiVar.get_value (UiVar.new s2 k3 l2 q3).2 (UiVar.new s2 k3 l2 q3).1 =
        some (q3, (UiVar.new s2 k3 l2 q3).1)) ∧
    ((UiRangedVar.new s3 k4 l3 q4 (mn, mx)).2.message_queue =
        s3.message_queue ++ [ToGuiLoopMessage.addRangedVar k4 l3 q4 (mn, mx)] ∧
      UiRangedVar.get_value (UiRangedVar.new s3 k4 l3 q4 (mn, mx)).2
          (UiRangedVar.new s3 k4 l3 q4 (mn, mx)).1 =
        some (q4, (UiRangedVar.new s3 k4 l3 q4 (mn, mx)).1)) ∧
    ((UiEnum.new ops s4 l4 v).2.message_queue =
        s4.message_queue ++
          [ToGuiLoopMessage.addEnumStringRepr l4 (ops.toStr v) ops.variants] ∧
      UiEnum.get_value ops (UiEnum.new ops s4 l4 v).2 (UiEnum.new ops s4 l4 v).1 =
        some (v, (UiEnum.new ops s4 l4 v).1)) ∧
    ((UiButton.new s5 l5).2.message_queue =
        s5.message_queue ++ [ToGuiLoopMessage.addButton l5] ∧
      lookupEntry l5 (UiButton.new s5 l5).2.components = some (Component.button false)) := by
  refine ⟨⟨rfl, ?_⟩, ⟨rfl, ?_⟩, ⟨rfl, ?_⟩, ⟨rfl, ?_⟩, rfl, ?_⟩
  · simp [UiVarBool.new, UiVarBool.get_value, lookupEntry_insertEntry_self]
  · simp [UiVar.new, UiVar.get_value, lookupEntry_insertEntry_self]
  · simp [UiRangedVar.new, UiRangedVar.get_value, lookupEntry_insertEntry_self]
  · simp [UiEnum.new, UiEnum.get_value, lookupEntry_insertEntry_self, hfs]
  · simp [UiButton.new, lookupEntry_insertEntry_self]

/-- C1 witness: concrete add operations on the default shared state, with the
`Foo`/`Bar`/`Daz` test enum. -/
theorem add_ops_register_mirror_and_enqueue_witness :
    testModeOps.fromStr (testModeOps.toStr TestMode.daz) = some TestMode.daz ∧
    (((UiVarBool.new Shared.defaultState "a" true).2.message_queue =
        Shared.defaultState.message_queue ++ [ToGuiLoopMessage.addVarBool "a" true] ∧
      UiVarBool.get_value (UiVarBool.new Shared.defaultState "a" true).2
          (UiVarBool.new Shared.defaultState "a" true).1 =
        some (true, (UiVarBool.new Shared.defaultState "a" true).1)) ∧
    ((UiVar.new Shared.defaultState NumKind.i32 "b" 5).2.message_queue =
        Shared.defaultState.message_queue ++ [ToGuiLoopMessage.addVar NumKind.i32 "b" 5] ∧
      UiVar.get_value (UiVar.new Shared.defaultState NumKind.i32 "b" 5).2
          (UiVar.new Shared.defaultState NumKind.i32 "b" 5).1 =
        some (5, (UiVar.new Shared.defaultState NumKind.i32 "b" 5).1)) ∧
    ((UiRangedVar.new Shared.defaultState NumKind.f32 "c" (1 / 2) (0, 1)).2.message_queue =
        Shared.defaultState.message_queue ++
          [ToGuiLoopMessage.addRangedVar NumKind.f32 "c" (1 / 2) (0, 1)] ∧
      UiRangedVar.get_value
          (UiRangedVar.new Shared.defaultState NumKind.f32 "c" (1 / 2) (0, 1)).2
          (UiRangedVar.new Shared.defaultState NumKind.f32 "c" (1 / 2) (0, 1)).1 =
        some (1 / 2,
          (UiRangedVar.new Shared.defaultState NumKind.f32 "c" (1 / 2) (0, 1)).1)) ∧
    ((UiEnum.new testModeOps Shared.defaultState "d" TestMode.daz).2.message_queue =
        Shared.defaultState.message_queue ++
          [ToGuiLoopMessage.addEnumStringRepr "d" (testModeOps.toStr TestMode.daz)
            testModeOps.variants] ∧
      UiEnum.get_value testModeOps
          (UiEnum.new testModeOps Shared.defaultState "d" TestMode.daz).2
          (UiEnum.new testModeOps Shared.defaultState "d" TestMode.daz).1 =
        some (TestMode.daz,
          (UiEnum.new testModeOps Shared.defaultState "d" TestMode.daz).1)) ∧
    ((UiButton.new Shared.defaultState "e").2.message_queue =
        Shared.defaultState.message_queue ++ [ToGuiLoopMessage.addButton "e"] ∧
      lookupEntry "e" (UiButton.new Shared.defaultState "e").2.components =
        some (Component.button false))) :=
  ⟨rfl,
    add_ops_register_mirror_and_enqueue testModeOps Shared.defaultState
      Shared.defaultState Shared.defaultState Shared.defaultState Shared.defaultState
      "a" "b" "c" "d" "e" true NumKind.i32 NumKind.f32 5 (1 / 2) 0 1 TestMode.daz rfl⟩

/-! ## C4 and C10: edge-triggered reads -/

/-- C4: `get_new_value` is a per-handle edge trigger. For every handle kind it
returns the mirrored value exactly when that value differs from the handle's
own last-seen stamp, refreshing the stamp in that case — so a second call with
no intervening change returns `None` — and since the call depends only on the
handle's own stamp (the shared state is untouched), handles to the same label
keep independent stamps. -/
theorem get_new_value_edge_trigger {α : Type} [DecidableEq α] (ops : EnumOps α)
    (s : Shared) (hr : UiRangedVar) (vr : ℚ) (mm : ℚ × ℚ) (hv : UiVar) (vv : ℚ)
    (hb : UiVarBool) (vb : Bool) (he : UiEnum α) (estr : String)
    (evals : List String) (ve : α)
    (hslotR : lookupEntry hr.label s.components = some (Component.rangedVar hr.kind vr mm))
    (hslotV : lookupEntry hv.label s.components = some (Component.var hv.kind vv))
    (hslotB : lookupEntry hb.label s.components = some (Component.varBool vb))
    (hslotE : lookupEntry he.label s.components = some (Component.enumStringRepr estr evals))
    (hparse : ops.fromStr estr = some ve) :
    (UiRangedVar.get_new_value s hr =
        some (if vr = hr.cache then none else some vr, { hr with cache := vr }) ∧
      UiRangedVar.get_new_value s { hr with cache := vr } =
        some (none, { hr with cache := vr })) ∧
    (UiVar.get_new_value s hv =
        some (if vv = hv.cache then none else some vv, { hv with cache := vv }) ∧
      UiVar.get_new_value s { hv with cache := vv } =
        some (none, { hv with cache := vv })) ∧
    (UiVarBool.get_new_value s hb =
        some (if vb = hb.cache then none else some vb, { hb with cache := vb }) ∧
      UiVarBool.get_new_value s { hb with cache := vb } =
        some (none, { hb with cache := vb })) ∧
    (UiEnum.get_new_value ops s he =
        some (if ve = he.cache then none else some ve, { he with cache := ve }) ∧
      UiEnum.get_new_value ops s { he with cache := ve } =
        some (none, { he with cache := ve })) := by
  refine ⟨⟨?_, ?_⟩, ⟨?_, ?_⟩, ⟨?_, ?_⟩, ⟨?_, ?_⟩⟩
  · by_cases hc : vr = hr.cache <;>
      simp [UiRangedVar.get_new_value, hslotR, hc]
  · simp [UiRangedVar.get_new_value, hslotR]
  · by_cases hc : vv = hv.cache <;>
      simp [UiVar.get_new_value, hslotV, hc]
  · simp [UiVar.get_new_value, hslotV]
  · by_cases hc : vb = hb.cache <;>
      simp [UiVarBool.get_new_value, hslotB, hc]
  · simp [UiVarBool.get_new_value, hslotB]
  · by_cases hc : ve = he.cache <;>
      simp [UiEnum.get_new_value, hslotE, hparse, hc]
  · simp [UiEnum.get_new_value, hslotE, hparse]

/-- C4 witness: the four handle kinds reading `sampleMirror`, each with a
stale stamp (first call yields the value, second call yields `None`). -/
theorem get_new_value_edge_trigger_witness :
    (lookupEntry "r" sampleMirror.components =
        some (Component.rangedVar NumKind.f32 3 (0, 10)) ∧
      lookupEntry "v" sampleMirror.components = some (Component.var NumKind.i32 5) ∧
      lookupEntry "b" sampleMirror.components = some (Component.varBool true) ∧
      lookupEntry "e" sampleMirror.components =
        some (Component.enumStringRepr "Bar" ["Foo", "Bar", "Daz"]) ∧
      testModeOps.fromStr "Bar" = some TestMode.bar) ∧
    ((UiRangedVar.get_new_value sampleMirror ⟨NumKind.f32, "r", 0⟩ =
        some (some 3, ⟨NumKind.f32, "r", 3⟩) ∧
      UiRangedVar.get_new_value sampleMirror ⟨NumKind.f32, "r", 3⟩ =
        some (none, ⟨NumKind.f32, "r", 3⟩)) ∧
    (UiVar.get_new_value sampleMirror ⟨NumKind.i32, "v", 0⟩ =
        some (some 5, ⟨NumKind.i32, "v", 5⟩) ∧
      UiVar.get_new_value sampleMirror ⟨NumKind.i32, "v", 5⟩ =
        some (none, ⟨NumKind.i32, "v", 5⟩)) ∧
    (UiVarBool.get_new_value sampleMirror ⟨"b", false⟩ =
        some (some true, ⟨"b", true⟩) ∧
      UiVarBool.get_new_value sampleMirror ⟨"b", true⟩ = some (none, ⟨"b", true⟩)) ∧
    (UiEnum.get_new_value testModeOps sampleMirror ⟨"e", TestMode.foo⟩ =
        some (some TestMode.bar, ⟨"e", TestMode.bar⟩) ∧
      UiEnum.get_new_value testModeOps sampleMirror ⟨"e", TestMode.bar⟩ =
        some (none, ⟨"e", TestMode.bar⟩))) :=
  ⟨⟨rfl, rfl, rfl, rfl, rfl⟩,
    get_new_value_edge_trigger testModeOps sampleMirror
      ⟨NumKind.f32, "r", 0⟩ 3 (0, 10) ⟨NumKind.i32, "v", 0⟩ 5 ⟨"b", false⟩ true
      ⟨"e", TestMode.foo⟩ "Bar" ["Foo", "Bar", "Daz"] TestMode.bar
      rfl rfl rfl rfl rfl⟩

/-- C10: `get_value` also refreshes the per-handle stamp with the value it
returns, so a `get_value` immediately followed by `get_new_value` (with no
intervening change) yields `None` — even when the value differed from the
handle's previous stamp. -/
theorem get_value_resets_edge_trigger {α : Type} [DecidableEq α] (ops : EnumOps α)
    (s : Shared) (hr : UiRangedVar) (vr : ℚ) (mm : ℚ × ℚ) (hv : UiVar) (vv : ℚ)
    (hb : UiVarBool) (vb : Bool) (he : UiEnum α) (estr : String)
    (evals : List String) (ve : α)
    (hslotR : lookupEntry hr.label s.components = some (Component.rangedVar hr.kind vr mm))
    (hslotV : lookupEntry hv.label s.components = some (Component.var hv.kind vv))
    (hslotB : lookupEntry hb.label s.components = some (Component.varBool vb))
    (hslotE : lookupEntry he.label s.components = some (Component.enumStringRepr estr evals))
    (hparse : ops.fromStr estr = some ve) :
    (UiRangedVar.get_value s hr = some (vr, { hr with cache := vr }) ∧
      UiRangedVar.get_new_value s { hr with cache := vr } =
        some (none, { hr with cache := vr })) ∧
    (UiVar.get_value s hv = some (vv, { hv with cache := vv }) ∧
      UiVar.get_new_value s { hv with cache := vv } =
        some (none, { hv with cache := vv })) ∧
    (UiVarBool.get_value s hb = some (vb, { hb with cache := vb }) ∧
      UiVarBool.get_new_value s { hb with cache := vb } =
        some (none, { hb with cache := vb })) ∧
    (UiEnum.get_value ops s he = some (ve, { he with cache := ve }) ∧
      UiEnum.get_new_value ops s { he with cache := ve } =
        some (none, { he with cache := ve })) := by
  refine ⟨⟨?_, ?_⟩, ⟨?_, ?_⟩, ⟨?_, ?_⟩, ⟨?_, ?_⟩⟩
  · simp [UiRangedVar.get_value, hslotR]
  · simp [UiRangedVar.get_new_value, hslotR]
  · simp [UiVar.get_value, hslotV]
  · simp [UiVar.get_new_value, hslotV]
  · simp [UiVarBool.get_value, hslotB]
  · simp [UiVarBool.get_new_value, hslotB]
  · simp [UiEnum.get_value, hslotE, hparse]
  · simp [UiEnum.get_new_value, hslotE, hparse]

/-- C10 witness: each handle kind, with a stale stamp, reading `sampleMirror`
by `get_value` and then finding no "new" value. -/
theorem get_value_resets_edge_trigger_witness :
    (lookupEntry "r" sampleMirror.components =
        some (Component.rangedVar NumKind.f32 3 (0, 10)) ∧
      lookupEntry "v" sampleMirror.components = some (Component.var NumKind.i32 5) ∧
      lookupEntry "b" sampleMirror.components = some (Component.varBool true) ∧
      lookupEntry "e" sampleMirror.components =
        some (Component.enumStringRepr "Bar" ["Foo", "Bar", "Daz"]) ∧
      testModeOps.fromStr "Bar" = some TestMode.bar) ∧
    ((UiRangedVar.get_value sampleMirror ⟨NumKind.f32, "r", 7⟩ =
        some (3, ⟨NumKind.f32, "r", 3⟩) ∧
      UiRangedVar.get_new_value sampleMirror ⟨NumKind.f32, "r", 3⟩ =
        some (none, ⟨NumKind.f32, "r", 3⟩)) ∧
    (UiVar.get_value sampleMirror ⟨NumKind.i32, "v", 7⟩ =
        some (5, ⟨NumKind.i32, "v", 5⟩) ∧
      UiVar.get_new_value sampleMirror ⟨NumKind.i32, "v", 5⟩ =
        some (none, ⟨NumKind.i32, "v", 5⟩)) ∧
    (UiVarBool.get_value sampleMirror ⟨"b", false⟩ = some (true, ⟨"b", true⟩) ∧
      UiVarBool.get_new_value sampleMirror ⟨"b", true⟩ = some (none, ⟨"b", true⟩)) ∧
    (UiEnum.get_value testModeOps sampleMirror ⟨"e", TestMode.foo⟩ =
        some (TestMode.bar, ⟨"e", TestMode.bar⟩) ∧
      UiEnum.get_new_value testModeOps sampleMirror ⟨"e", TestMode.bar⟩ =
        some (none, ⟨"e", TestMode.bar⟩))) :=
  ⟨⟨rfl, rfl, rfl, rfl, rfl⟩,
    get_value_resets_edge_trigger testModeOps sampleMirror
      ⟨NumKind.f32, "r", 7⟩ 3 (0, 10) ⟨NumKind.i32, "v", 7⟩ 5 ⟨"b", false⟩ true
      ⟨"e", TestMode.foo⟩ "Bar" ["Foo", "Bar", "Daz"] TestMode.bar
      rfl rfl rfl rfl rfl⟩

/-! ## C3: ranged-slider bound invariant -/

/-- C3: applying a legitimate protocol-generated `UpdateRangedValue` message
with value `v` to the control-side mirror succeeds, after which `get_value`
through any matching handle returns exactly `v`; the message leaves the
declared bounds untouched, so the mirrored value stays within the previously
declared `[min, max]` (the in-range hypothesis is the spec's caller contract:
values outside the range are a contract violation not defended by the core,
while protocol-generated slider updates are clamped to the declared range by
the presentation-side slider). -/
theorem ranged_value_update_within_bounds (cs : Components)
    (q : List ToGuiLoopMessage) (kind : NumKind) (label : String)
    (v0 v mn mx cache : ℚ)
    (hslot : lookupEntry label cs = some (Component.rangedVar kind v0 (mn, mx)))
    (hlo : mn ≤ v) (hhi : v ≤ mx) :
    ∃ cs2,
      (FromGuiLoopMessage.updateRangedValue kind label v).update cs = some cs2 ∧
      lookupEntry label cs2 = some (Component.rangedVar kind v (mn, mx)) ∧
      UiRangedVar.get_value { components := cs2, message_queue := q }
          { kind := kind, label := label, cache := cache } =
        some (v, { kind := kind, label := label, cache := v }) ∧
      mn ≤ v ∧ v ≤ mx := by
  obtain ⟨cs2, hupd, hlook, -, -⟩ :=
    updateEntry_of_lookup label
      (fun c => match c with
        | Component.rangedVar k _ mm => if k = kind then some (Component.rangedVar k v mm) else none
        | _ => none)
      cs (Component.rangedVar kind v0 (mn, mx)) (Component.rangedVar kind v (mn, mx))
      hslot (by simp)
  refine ⟨cs2, ?_, hlook, ?_, hlo, hhi⟩
  · simpa [FromGuiLoopMessage.update] using hupd
  · simp [UiRangedVar.get_value, hlook]

/-- C3 witness: a concrete in-range slider update on `sampleMirror`. -/
theorem ranged_value_update_within_bounds_witness :
    (lookupEntry "r" sampleMirror.components =
        some (Component.rangedVar NumKind.f32 3 (0, 10)) ∧
      (0 : ℚ) ≤ 7 ∧ (7 : ℚ) ≤ 10) ∧
    (∃ cs2,
      (FromGuiLoopMessage.updateRangedValue NumKind.f32 "r" 7).update
          sampleMirror.components = some cs2 ∧
      lookupEntry "r" cs2 = some (Component.rangedVar NumKind.f32 7 (0, 10)) ∧
      UiRangedVar.get_value { components := cs2, message_queue := [] }
          { kind := NumKind.f32, label := "r", cache := 3 } =
        some (7, { kind := NumKind.f32, label := "r", cache := 7 }) ∧
      (0 : ℚ) ≤ 7 ∧ (7 : ℚ) ≤ 10) :=
  ⟨⟨rfl, by norm_num, by norm_num⟩,
    ranged_value_update_within_bounds sampleMirror.components [] NumKind.f32 "r"
      3 7 0 10 3 rfl (by norm_num) (by norm_num)⟩

/-! ## C7: button press observed exactly once -/

/-- C7: after a button is added (unpressed) and a single `UpdateButton` press
message is applied to the mirror, `was_pressed` returns `true` exactly once:
the first call returns `true` and resets the flag, and the next call returns
`false` with the state unchanged — so every subsequent call stays `false`
until another press message is applied. -/
theorem button_pressed_exactly_once (s : Shared) (label : String) :
    ∃ cs2 s3,
      (FromGuiLoopMessage.updateButton label).update
          ((UiButton.new s label).2).components = some cs2 ∧
      UiButton.was_pressed
          { components := cs2, message_queue := (UiButton.new s label).2.message_queue }
          (UiButton.new s label).1 = some (true, s3) ∧
      UiButton.was_pressed s3 (UiButton.new s label).1 = some (false, s3) := by
  have hadd : lookupEntry label ((UiButton.new s label).2).components =
      some (Component.button false) := by
    simp [UiButton.new, lookupEntry_insertEntry_self]
  obtain ⟨cs2, hupd, hlook2, -, -⟩ :=
    updateEntry_of_lookup label
      (fun c => match c with
        | Component.button _ => some (Component.button true)
        | _ => none)
      ((UiButton.new s label).2).components (Component.button false)
      (Component.button true) hadd (by simp)
  obtain ⟨cs3, hupd3, hlook3, -, -⟩ :=
    updateEntry_of_lookup label
      (fun c => match c with
        | Component.button _ => some (Component.button false)
        | _ => none)
      cs2 (Component.button true) (Component.button false) hlook2 (by simp)
  refine ⟨cs2,
    { components := cs3, message_queue := (UiButton.new s label).2.message_queue },
    ?_, ?_, ?_⟩
  · simpa [FromGuiLoopMessage.update] using hupd
  · simp [UiButton.was_pressed, UiButton.new, hlook2, hupd3]
  · simp [UiButton.was_pressed, UiButton.new, hlook3]

/-! ## C5 and C6: 3d-panel entity lifecycle -/

/-- C5: for an existing 3d panel `P`, applying `PlaceEntity3` inserts the
named entity if absent and replaces it in place if present, preserving the
panel's entity insertion order (the key sequence is unchanged on replace and
extended by exactly the new label on insert); a subsequently applied
`UpdateScenePoseEntity3` for the same entity mutates the stored pose in place,
so reading the entity from the panel afterwards yields the updated pose. -/
theorem place_entity_then_update_pose (d : GuiData) (P : String) (w3 : Widget3)
    (ne : NamedEntity3) (pose2 : Isometry3)
    (hP : lookupEntry P d.widgets = some (Widget.widget3 w3)) :
    ∃ d1 w3a d2 w3b,
      (ToGuiLoopMessage.placeEntity3 P ne).update_gui d = some d1 ∧
      lookupEntry P d1.widgets = some (Widget.widget3 w3a) ∧
      w3a.entities = insertEntry ne.label ne w3.entities ∧
      lookupEntry ne.label w3a.entities = some ne ∧
      w3a.entities.map Prod.fst =
        (if containsEntry ne.label w3.entities then w3.entities.map Prod.fst
         else w3.entities.map Prod.fst ++ [ne.label]) ∧
      (ToGuiLoopMessage.updateScenePoseEntity3 P ne.label pose2).update_gui d1 = some d2 ∧
      lookupEntry P d2.widgets = some (Widget.widget3 w3b) ∧
      lookupEntry ne.label w3b.entities = some { ne with scene_pose_entity := pose2 } ∧
      w3b.entities.map Prod.fst = w3a.entities.map Prod.fst := by
  obtain ⟨ws1, hupd1, hlookP1, -, -⟩ :=
    updateEntry_of_lookup P
      (fun w => match w with
        | Widget.widget3 w3x =>
          some (Widget.widget3
            { w3x with entities := insertEntry ne.label ne w3x.entities })
        | _ => none)
      d.widgets (Widget.widget3 w3)
      (Widget.widget3 { w3 with entities := insertEntry ne.label ne w3.entities })
      hP (by simp)
  obtain ⟨es, hupdE, hlookE, -, hkeysE⟩ :=
    updateEntry_of_lookup ne.label
      (fun nx => some { nx with scene_pose_entity := pose2 })
      (insertEntry ne.label ne w3.entities) ne { ne with scene_pose_entity := pose2 }
      (lookupEntry_insertEntry_self ne.label ne w3.entities) rfl
  obtain ⟨ws2, hupd2, hlookP2, -, -⟩ :=
    updateEntry_of_lookup P
      (fun w => match w with
        | Widget.widget3 w3x =>
          match updateEntry ne.label
            (fun nx => some { nx with scene_pose_entity := pose2 }) w3x.entities with
          | none => some (Widget.widget3 w3x)
          | some es2 => some (Widget.widget3 { w3x with entities := es2 })
        | _ => none)
      ws1 (Widget.widget3 { w3 with entities := insertEntry ne.label ne w3.entities })
      (Widget.widget3
        { w3 with entities := es })
      hlookP1 (by simp [hupdE])
  refine ⟨{ d with widgets := ws1 },
    { w3 with entities := insertEntry ne.label ne w3.entities },
    { d with widgets := ws2 },
    { w3 with entities := es },
    ?_, hlookP1, rfl, lookupEntry_insertEntry_self ne.label ne w3.entities,
    ?_, ?_, hlookP2, hlookE, ?_⟩
  · simp [ToGuiLoopMessage.update_gui, hupd1]
  · exact keys_insertEntry ne.label ne w3.entities
  · simp [ToGuiLoopMessage.update_gui, hupd2]
  · exact hkeysE

/-- C5 witness: place entity `"A"` into panel `"P"`, then update its pose. -/
theorem place_entity_then_update_pose_witness :
    lookupEntry "P" sampleGui.widgets = some (Widget.widget3 Widget3.new) ∧
    (∃ d1 w3a d2 w3b,
      (ToGuiLoopMessage.placeEntity3 "P" sampleEntity).update_gui sampleGui = some d1 ∧
      lookupEntry "P" d1.widgets = some (Widget.widget3 w3a) ∧
      w3a.entities = insertEntry sampleEntity.label sampleEntity Widget3.new.entities ∧
      lookupEntry sampleEntity.label w3a.entities = some sampleEntity ∧
      w3a.entities.map Prod.fst =
        (if containsEntry sampleEntity.label Widget3.new.entities then
          Widget3.new.entities.map Prod.fst
         else Widget3.new.entities.map Prod.fst ++ [sampleEntity.label]) ∧
      (ToGuiLoopMessage.updateScenePoseEntity3 "P" sampleEntity.label
          samplePose).update_gui d1 = some d2 ∧
      lookupEntry "P" d2.widgets = some (Widget.widget3 w3b) ∧
      lookupEntry sampleEntity.label w3b.entities =
        some { sampleEntity with scene_pose_entity := samplePose } ∧
      w3b.entities.map Prod.fst = w3a.entities.map Prod.fst) :=
  ⟨rfl,
    place_entity_then_update_pose sampleGui "P" Widget3.new sampleEntity samplePose rfl⟩

/-- C6: a pose update naming an entity that does not exist in its (existing)
3d panel, and a `DeleteComponent` naming an absent component, are both silent
no-ops: the store is returned completely unchanged and no panic occurs. -/
theorem missing_target_noop (d : GuiData) (P B lbl : String) (w3 : Widget3)
    (pose : Isometry3)
    (hP : lookupEntry P d.widgets = some (Widget.widget3 w3))
    (hB : lookupEntry B w3.entities = none)
    (hlbl : lookupEntry lbl d.components = none) :
    (ToGuiLoopMessage.updateScenePoseEntity3 P B pose).update_gui d = some d ∧
    (ToGuiLoopMessage.deleteComponent lbl).update_gui d = some d := by
  constructor
  · have hfix :
        (fun w => match w with
          | Widget.widget3 w3x =>
            match updateEntry B
              (fun nx => some { nx with scene_pose_entity := pose }) w3x.entities with
            | none => some (Widget.widget3 w3x)
            | some es2 => some (Widget.widget3 { w3x with entities := es2 })
          | _ => none) (Widget.widget3 w3) = some (Widget.widget3 w3) := by
      simp [updateEntry_eq_none B _ w3.entities hB]
    have hupd := updateEntry_id_of_fix P
      (fun w => match w with
        | Widget.widget3 w3x =>
          match updateEntry B
            (fun nx => some { nx with scene_pose_entity := pose }) w3x.entities with
          | none => some (Widget.widget3 w3x)
          | some es2 => some (Widget.widget3 { w3x with entities := es2 })
        | _ => none)
      d.widgets (Widget.widget3 w3) hP hfix
    simp [ToGuiLoopMessage.update_gui, hupd]
  · simp [ToGuiLoopMessage.update_gui,
      removeEntry_eq_of_lookup_none lbl d.components hlbl]

/-- C6 witness: pose update for the absent entity `"B"` in panel `"P"` and
deletion of the absent component `"x"` both leave `sampleGui` unchanged. -/
theorem missing_target_noop_witness :
    (lookupEntry "P" sampleGui.widgets = some (Widget.widget3 Widget3.new) ∧
      lookupEntry "B" Widget3.new.entities = none ∧
      lookupEntry "x" sampleGui.components = none) ∧
    ((ToGuiLoopMessage.updateScenePoseEntity3 "P" "B" samplePose).update_gui
        sampleGui = some sampleGui ∧
      (ToGuiLoopMessage.deleteComponent "x").update_gui sampleGui = some sampleGui) :=
  ⟨⟨rfl, rfl, rfl⟩,
    missing_target_noop sampleGui "P" "B" "x" Widget3.new samplePose rfl rfl rfl⟩

/-! ## C9: central-panel layout -/

/-- C9: the shared-cell aspect ratio of `GuiLoop::draw` is not the median of
the widgets' aspect ratios. For an even widget count the code reads
`sorted[n/2]` and `sorted[n/2 + 1]`: with exactly two widgets the second index
is out of bounds (a Rust panic, `none` here, evaluated on a 3d panel and a 2d
panel of aspect ratio 2), and with four widgets (sorted ratios `[1,2,3,4]`) it
averages the wrong pair, giving `7/2` where the median — the claimed value,
computed by `medianOfSortedSpec` — is `5/2`. -/
theorem central_panel_layout_even_count_bug :
    computeWidgetLayout
        [Widget.widget3 Widget3.new, Widget.widget2 { aspect_ratio := 2 }] 950 950 =
      none ∧
    medianAspectRatioOfSorted [1, 2, 3, 4] = some (7 / 2) ∧
    medianOfSortedSpec [1, 2, 3, 4] = some (5 / 2) ∧
    medianOfSortedSpec [4 / 3, 2] = some (5 / 3) := by
  refine ⟨?_, ?_, ?_, ?_⟩
  · norm_num [computeWidgetLayout, Widget.aspect_ratio, Widget3.new,
      List.insertionSort, List.orderedInsert, medianAspectRatioOfSorted]
  · norm_num [medianAspectRatioOfSorted]
  · norm_num [medianOfSortedSpec]
  · norm_num [medianOfSortedSpec]

/-! ## C8: JSON round-trip lemmas -/

theorem mapM_loop_of_inverse {α β : Type} {f : α → β} {g : β → Option α}
    (hfg : ∀ a, g (f a) = some a) (xs : List α) (acc : List α) :
    List.mapM.loop g (xs.map f) acc = some (acc.reverse ++ xs) := by
  induction xs generalizing acc with
  | nil => simp [List.mapM.loop]
  | cons a xs ih => simp [List.mapM.loop, hfg, ih]

theorem mapM_map_of_inverse {α β : Type} {f : α → β} {g : β → Option α}
    (hfg : ∀ a, g (f a) = some a) (xs : List α) : (xs.map f).mapM g = some xs := by
  simpa [List.mapM] using mapM_loop_of_inverse hfg xs []

theorem decInt_encInt (i : Int) : decInt (encInt i) = some i := by
  simp [decInt, encInt]

theorem decNat_encNat (n : Nat) : decNat (encNat n) = some n := by
  simp [decNat, encNat]

theorem decList_encList {α : Type} {f : α → Json} {g : Json → Option α}
    (hfg : ∀ a, g (f a) = some a) (xs : List α) :
    decList g (encList f xs) = some xs := by
  simp [decList, encList, mapM_loop_of_inverse hfg, List.mapM]

theorem decIsometry3_encIsometry3 (p : Isometry3) :
    decIsometry3 (encIsometry3 p) = some p := rfl

theorem decVertex7_encVertex7 (v : Vertex7) : decVertex7 (encVertex7 v) = some v := rfl

theorem decVertex5_encVertex5 (v : Vertex5) : decVertex5 (encVertex5 v) = some v := rfl

theorem decFace3_encFace3 (f : Face3) : decFace3 (encFace3 f) = some f := by
  simp [decFace3, encFace3, decInt_encInt]

theorem decSeg2_encSeg2 (s : Seg2) : decSeg2 (encSeg2 s) = some s := by
  simp [decSeg2, encSeg2, decInt_encInt]

theorem decPositionColorVertices_enc (v : PositionColorVertices) :
    decPositionColorVertices (encPositionColorVertices v) = some v := by
  simp [decPositionColorVertices, encPositionColorVertices,
    decList_encList decVertex7_encVertex7]

theorem decPositionUvVertices_enc (v : PositionUvVertices) :
    decPositionUvVertices (encPositionUvVertices v) = some v := by
  simp [decPositionUvVertices, encPositionUvVertices,
    decList_encList decVertex5_encVertex5]

theorem decTexture_encTexture (t : Texture) : decTexture (encTexture t) = some t := by
  cases t; rfl

theorem decPositionUvVerticesAndTexture_enc (v : PositionUvVerticesAndTexture) :
    decPositionUvVerticesAndTexture (encPositionUvVerticesAndTexture v) = some v := by
  cases v with
  | mk vs t =>
    cases t
    simp [decPositionUvVerticesAndTexture, encPositionUvVerticesAndTexture,
      decPositionUvVertices_enc, encTexture, decTexture]

theorem decMeshVertices_enc (v : MeshVertices) :
    decMeshVertices (encMeshVertices v) = some v := by
  cases v with
  | positionColor p =>
    simp [decMeshVertices, encMeshVertices, decPositionColorVertices_enc]
  | positionUvAndTexture p =>
    simp [decMeshVertices, encMeshVertices, decPositionUvVerticesAndTexture_enc]

theorem decFaces_encFaces (f : Faces) : decFaces (encFaces f) = some f := by
  simp [decFaces, encFaces, decList_encList decFace3_encFace3]

theorem decMesh3_encMesh3 (m : Mesh3) : decMesh3 (encMesh3 m) = some m := by
  simp [decMesh3, encMesh3, decMeshVertices_enc, decFaces_encFaces]

theorem decLineSegments3_enc (s : LineSegments3) :
    decLineSegments3 (encLineSegments3 s) = some s := by
  simp [decLineSegments3, encLineSegments3, decPositionColorVertices_enc,
    decList_encList decSeg2_encSeg2]

theorem decEntity3_encEntity3 (e : Entity3) : decEntity3 (encEntity3 e) = some e := by
  cases e with
  | mesh m => simp [decEntity3, encEntity3, decMesh3_encMesh3]
  | lineSegments s => simp [decEntity3, encEntity3, decLineSegments3_enc]

theorem decNamedEntity3_enc (ne : NamedEntity3) :
    decNamedEntity3 (encNamedEntity3 ne) = some ne := by
  simp [decNamedEntity3, encNamedEntity3, decEntity3_encEntity3,
    decIsometry3_encIsometry3, encStr, decStr]

theorem decImageRgba8_enc (img : ImageRgba8) :
    decImageRgba8 (encImageRgba8 img) = some img := by
  simp [decImageRgba8, encImageRgba8, decList_encList decNat_encNat, decNat_encNat]

theorem decToGui_encToGui (m : ToGuiLoopMessage) :
    decToGuiLoopMessage (encToGuiLoopMessage m) = some m := by
  cases m with
  | addEnumStringRepr label value values =>
    simp [encToGuiLoopMessage, decToGuiLoopMessage, decStr, encStr,
      decList_encList (f := encStr) (g := decStr) (fun _ => rfl)]
  | addButton label => rfl
  | addVarBool label value => rfl
  | addVar kind label value => cases kind <;> rfl
  | addRangedVar kind label value min_max => cases kind <;> rfl
  | addWidget2 label image =>
    simp [encToGuiLoopMessage, decToGuiLoopMessage, decStr, encStr, decImageRgba8_enc]
  | addWidget3 label => rfl
  | placeEntity3 widget_label named_entity =>
    simp [encToGuiLoopMessage, decToGuiLoopMessage, decStr, encStr, decNamedEntity3_enc]
  | deleteComponent label => rfl
  | updateScenePoseEntity3 widget_label entity_label scene_pose_entity =>
    simp [encToGuiLoopMessage, decToGuiLoopMessage, decStr, encStr,
      decIsometry3_encIsometry3]

theorem decFromGui_encFromGui (m : FromGuiLoopMessage) :
    decFromGuiLoopMessage (encFromGuiLoopMessage m) = some m := by
  cases m with
  | updateEnumStringRepr label value => rfl
  | updateValueBool label value => rfl
  | updateRangedValue kind label value => cases kind <;> rfl
  | updateButton label => rfl

/-- C8: serializing a batch of control→presentation messages (resp. of
presentation→control messages) to the JSON wire format — a JSON array of
externally-tagged variants — and deserializing it back yields a batch
structurally equal to the original, for every combination of variants. -/
theorem message_batch_json_roundtrip :
    (∀ ms : List ToGuiLoopMessage, decToGuiBatch (encToGuiBatch ms) = some ms) ∧
    (∀ ms : List FromGuiLoopMessage, decFromGuiBatch (encFromGuiBatch ms) = some ms) := by
  constructor
  · intro ms
    simp [decToGuiBatch, encToGuiBatch, List.mapM,
      mapM_loop_of_inverse decToGui_encToGui]
  · intro ms
    simp [decFromGuiBatch, encFromGuiBatch, List.mapM,
      mapM_loop_of_inverse decFromGui_encFromGui]

end VViz
